import Mathlib

/-!
Verification of the model-export finalization step
(`tensorflow/compiler/mlir/quantization/stablehlo/cc/export.cc`).

The file embeds the source's saver-descriptor synthesis logic
(`GetNodeName`, `FindFilePrefixTensorName`, `CreateSaverDef`) and the
export pass-pipeline assembly (`AddExportPasses`) as executable Lean
definitions, then proves properties of them.
-/

namespace TfExport

/-- Embedding of `absl::StrContains(hay, needle)`: case-sensitive exact
substring containment. -/
def strContains (hay needle : String) : Bool :=
  (List.range (hay.data.length + 1)).any fun i => needle.data.isPrefixOf (hay.data.drop i)

/-- Modelled from the spec: the reserved restore-operation substring marker
`kTfSavedModelInitializerRestoreType`, declared in
`tensorflow/compiler/mlir/tensorflow/ir/tf_saved_model.h` which is not part
of this repository snapshot. -/
def kTfSavedModelInitializerRestoreType : String := "restore_op"

/-- Modelled from the spec: the reserved save-operation substring marker
`kTfQuantSaveOpName`, declared in
`tensorflow/compiler/mlir/quantization/tensorflow/passes/constants.h` which
is not part of this repository snapshot. The spec's scenario names the save
node `tf_quant__save_op`. -/
def kTfQuantSaveOpName : String := "tf_quant__save_op"

/-- Modelled from the spec: the index-path attribute key
`kTfSavedModelIndexPathAttr`; the source's comment shows it as
`tf_saved_model.index_path`. -/
def kTfSavedModelIndexPathAttr : String := "tf_saved_model.index_path"

/-- Modelled from the spec: the reserved checkpoint-prefix index-path marker
`kTfFilePrefix`; the source's comment shows it as `__tf_file_prefix`. -/
def kTfFilePrefixMarker : String := "__tf_file_prefix"

/-- Modelled from the spec: `FunctionLibraryDefinition::kArgOp`, the
operation tag of function input-argument nodes, `_Arg`. -/
def kArgOp : String := "_Arg"

/-- A graph node: identifier, operation-type tag, and the attribute map.
Only the `list().s()` (list-of-strings) payload of an attribute value is
ever read by this core, so attribute values are embedded as `List String`. -/
structure NodeDef where
  name : String
  op : String
  attr : List (String × List String)
deriving DecidableEq, Repr

/-- Embedding of `node_def.attr().find(key)` on the protobuf map: the value
for the first entry with the given key, if any. -/
def lookupAttr (attrs : List (String × List String)) (key : String) : Option (List String) :=
  (attrs.find? fun p => p.fst == key).map Prod.snd

/-- A computation graph: its list of nodes, in iteration order. -/
structure GraphDef where
  node : List NodeDef
deriving DecidableEq, Repr

/-- Embedding of `GetNodeName`: return the first control-output node name
containing `contains` as a substring, else the empty string. -/
def GetNodeName (control_ret_node_names : List String) (contains : String) : String :=
  match control_ret_node_names with
  | [] => ""
  | node_name :: rest =>
    if strContains node_name contains then node_name
    else GetNodeName rest contains

/-- The condition under which `FindFilePrefixTensorName` selects a node: its
op is `_Arg` and its index-path attribute holds the file-prefix marker. -/
def isFilePrefixArg (node_def : NodeDef) : Bool :=
  node_def.op == kArgOp &&
    match lookupAttr node_def.attr kTfSavedModelIndexPathAttr with
    | some index_paths => index_paths.contains kTfFilePrefixMarker
    | none => false

/-- The loop of `FindFilePrefixTensorName` over `graph_def.node()`. -/
def findFilePrefixLoop : List NodeDef → String
  | [] => ""
  | node_def :: rest =>
    if node_def.op = kArgOp then
      match lookupAttr node_def.attr kTfSavedModelIndexPathAttr with
      | some index_paths =>
        if index_paths.contains kTfFilePrefixMarker then
          node_def.name ++ ":0"
        else findFilePrefixLoop rest
      | none => findFilePrefixLoop rest
    else findFilePrefixLoop rest

/-- Embedding of `FindFilePrefixTensorName`: the file prefix tensor name
(`"<node name>:0"` of the first matching `_Arg` node), or the empty string
if no such tensor is found. -/
def FindFilePrefixTensorName (graph_def : GraphDef) : String :=
  findFilePrefixLoop graph_def.node

/-- The `SaverDef.CheckpointFormatVersion` protobuf enum. -/
inductive CheckpointFormatVersion where
  | LEGACY
  | V1
  | V2
deriving DecidableEq, Repr

/-- The fields of the `SaverDef` protobuf message set by `CreateSaverDef`. -/
structure SaverDef where
  version : CheckpointFormatVersion
  filename_tensor_name : String
  restore_op_name : String
  save_tensor_name : String
deriving DecidableEq, Repr

/-- Embedding of `CreateSaverDef`. Returns `Except.error msg` for
`absl::InternalError(msg)`, `Except.ok none` for `std::nullopt` and
`Except.ok (some sd)` for a populated `SaverDef`. -/
def CreateSaverDef (control_ret_node_names : List String) (graph_def : GraphDef) :
    Except String (Option SaverDef) :=
  let filename_tensor_name := FindFilePrefixTensorName graph_def
  let restore_op_name :=
    GetNodeName control_ret_node_names kTfSavedModelInitializerRestoreType
  let save_node_name := GetNodeName control_ret_node_names kTfQuantSaveOpName
  let fields := [filename_tensor_name, restore_op_name, save_node_name]
  if fields.all String.isEmpty then
    Except.ok none
  else if fields.all fun s => !s.isEmpty then
    Except.ok (some
      { version := CheckpointFormatVersion.V2
        filename_tensor_name := filename_tensor_name
        restore_op_name := restore_op_name
        save_tensor_name := save_node_name ++ ":0" })
  else
    Except.error
      ("Failed to create SaverDef. Fields should be either all empty strings or all non-empty strings. Got fields: "
        ++ String.intercalate "," fields)

/-- The transformation passes added by `AddExportPasses`, identified by
their factory names. -/
inductive Pass where
  | DuplicateShapeDeterminingConstantsPass
  | InsertMainFunctionPass
  | LiftHashTableOpsAsArgsPass
  | FunctionalToExecutorDialectConversionPass
  | BreakUpIslandsPass
  | MergeInitializerFunctionOpsToMainPass
  | MergeSaveFunctionOpsToMainPass
  | MergeDuplicateResourceOpsPass
  | StripNoinlineAttributePass
deriving DecidableEq, Repr

/-- Embedding of `AddExportPasses`: the pass manager is a list of passes in
registration order, and each `addPass`/`addNestedPass` call appends one. -/
def AddExportPasses (pm : List Pass) (duplicate_shape_determining_constants : Bool) :
    List Pass :=
  pm ++
    (if duplicate_shape_determining_constants then
      [Pass.DuplicateShapeDeterminingConstantsPass]
    else []) ++
    [Pass.InsertMainFunctionPass,
     Pass.LiftHashTableOpsAsArgsPass,
     Pass.FunctionalToExecutorDialectConversionPass,
     Pass.BreakUpIslandsPass,
     Pass.MergeInitializerFunctionOpsToMainPass,
     Pass.MergeSaveFunctionOpsToMainPass,
     Pass.MergeDuplicateResourceOpsPass,
     Pass.StripNoinlineAttributePass]

/-- A string ends with the given suffix. -/
def strEndsWith (s suffix : String) : Bool :=
  suffix.data.isSuffixOf s.data

/-- Every string contains the empty string as a substring. -/
theorem strContains_empty_needle (h : String) : strContains h "" = true := by
  simp only [strContains, List.any_eq_true]
  exact ⟨0, by simp, by simp [List.isPrefixOf]⟩

/-- `GetNodeName` is the first list element containing the marker, with
default `""`. -/
theorem getNodeName_eq_find (names : List String) (m : String) :
    GetNodeName names m = ((names.find? fun n => strContains n m).getD "") := by
  induction names with
  | nil => rfl
  | cons n rest ih =>
    by_cases h : strContains n m = true
    · simp [GetNodeName, List.find?_cons, h]
    · simp only [Bool.not_eq_true] at h
      simp [GetNodeName, List.find?_cons, h, ih]

/-- `GetNodeName` returns the empty string or an element of its input. -/
theorem getNodeName_mem_or_eq_empty (names : List String) (m : String) :
    GetNodeName names m = "" ∨ GetNodeName names m ∈ names := by
  rw [getNodeName_eq_find]
  cases hfind : names.find? fun n => strContains n m with
  | none => left; rfl
  | some n => right; simpa using List.mem_of_find?_eq_some hfind

/-- `GetNodeName` returns the empty string when no input name contains the
marker. -/
theorem getNodeName_eq_empty_of_no_match (names : List String) (m : String)
    (h : ∀ n ∈ names, strContains n m = false) : GetNodeName names m = "" := by
  rw [getNodeName_eq_find]
  have : (names.find? fun n => strContains n m) = none := by
    rw [List.find?_eq_none]
    intro n hn
    simp [h n hn]
  simp [this]

/-- The loop of `FindFilePrefixTensorName` selects the first node satisfying
`isFilePrefixArg`. -/
theorem findFilePrefixLoop_eq_find (nodes : List NodeDef) :
    findFilePrefixLoop nodes =
      (((nodes.find? isFilePrefixArg).map fun nd => nd.name ++ ":0").getD "") := by
  induction nodes with
  | nil => rfl
  | cons nd rest ih =>
    by_cases hop : nd.op = kArgOp
    · cases hattr : lookupAttr nd.attr kTfSavedModelIndexPathAttr with
      | none => simp [findFilePrefixLoop, List.find?_cons, isFilePrefixArg, hop, hattr, ih]
      | some index_paths =>
        by_cases hc : kTfFilePrefixMarker ∈ index_paths
        · simp [findFilePrefixLoop, List.find?_cons, isFilePrefixArg, hop, hattr, hc]
        · simp [findFilePrefixLoop, List.find?_cons, isFilePrefixArg, hop, hattr, hc, ih]
    · simp [findFilePrefixLoop, List.find?_cons, isFilePrefixArg, hop, ih]

/-- Appending `":0"` produces a string ending in `":0"`. -/
theorem strEndsWith_append_suffix (s : String) : strEndsWith (s ++ ":0") ":0" = true := by
  simp only [strEndsWith]
  have hdata : (s ++ ":0").data = s.data ++ [':', '0'] := by
    simp [String.data_append]
  rw [hdata]
  simp [List.isSuffixOf_iff_suffix]

/-- `FindFilePrefixTensorName` returns `""` or some node's name with `":0"`
appended. -/
theorem findFilePrefix_empty_or_append (g : GraphDef) :
    FindFilePrefixTensorName g = "" ∨
      ∃ nd ∈ g.node, FindFilePrefixTensorName g = nd.name ++ ":0" := by
  rw [FindFilePrefixTensorName, findFilePrefixLoop_eq_find]
  cases hfind : g.node.find? isFilePrefixArg with
  | none => left; rfl
  | some nd => right; exact ⟨nd, List.mem_of_find?_eq_some hfind, rfl⟩

/-- C1: for every graph and control-output name list for which exactly one or
exactly two of the three signals (file-prefix tensor name, restore-op name,
save-node name) are empty, `CreateSaverDef` returns an internal error whose
message carries all three raw, possibly-empty field values joined by commas,
and never coerces the partial triple to `none` or to a descriptor. -/
theorem c1_partial_signals_internal_error (g : GraphDef) (names : List String)
    (h : [FindFilePrefixTensorName g,
          GetNodeName names kTfSavedModelInitializerRestoreType,
          GetNodeName names kTfQuantSaveOpName].countP String.isEmpty = 1 ∨
         [FindFilePrefixTensorName g,
          GetNodeName names kTfSavedModelInitializerRestoreType,
          GetNodeName names kTfQuantSaveOpName].countP String.isEmpty = 2) :
    CreateSaverDef names g =
      Except.error
        ("Failed to create SaverDef. Fields should be either all empty strings or all non-empty strings. Got fields: "
          ++ String.intercalate ","
              [FindFilePrefixTensorName g,
               GetNodeName names kTfSavedModelInitializerRestoreType,
               GetNodeName names kTfQuantSaveOpName]) := by
  simp only [CreateSaverDef]
  cases hf : (FindFilePrefixTensorName g).isEmpty <;>
    cases hr : (GetNodeName names kTfSavedModelInitializerRestoreType).isEmpty <;>
      cases hs : (GetNodeName names kTfQuantSaveOpName).isEmpty <;>
        simp_all [List.countP_cons]

/-- Witness for C1: a graph with no file-prefix argument and a single
control-output name matching the restore marker, so exactly two signals are
empty; `CreateSaverDef` returns the internal error carrying `,restore_op_init,`. -/
theorem c1_partial_signals_internal_error_witness :
    ([FindFilePrefixTensorName ⟨[]⟩,
      GetNodeName ["restore_op_init"] kTfSavedModelInitializerRestoreType,
      GetNodeName ["restore_op_init"] kTfQuantSaveOpName].countP String.isEmpty = 1 ∨
     [FindFilePrefixTensorName ⟨[]⟩,
      GetNodeName ["restore_op_init"] kTfSavedModelInitializerRestoreType,
      GetNodeName ["restore_op_init"] kTfQuantSaveOpName].countP String.isEmpty = 2) ∧
    CreateSaverDef ["restore_op_init"] ⟨[]⟩ =
      Except.error
        "Failed to create SaverDef. Fields should be either all empty strings or all non-empty strings. Got fields: ,restore_op_init," :=
  ⟨by decide, by exact c1_partial_signals_internal_error _ _ (by decide)⟩

/-- C2: for every graph and control-output name list for which all three
signals are non-empty, `CreateSaverDef` returns `ok (some descriptor)` with
version `V2`, the locator's file-prefix tensor name, the resolver's restore
result, and the resolver's save result with `":0"` appended. -/
theorem c2_all_signals_present_builds_saver_def (g : GraphDef) (names : List String)
    (hf : FindFilePrefixTensorName g ≠ "")
    (hr : GetNodeName names kTfSavedModelInitializerRestoreType ≠ "")
    (hs : GetNodeName names kTfQuantSaveOpName ≠ "") :
    CreateSaverDef names g =
      Except.ok (some
        { version := CheckpointFormatVersion.V2
          filename_tensor_name := FindFilePrefixTensorName g
          restore_op_name := GetNodeName names kTfSavedModelInitializerRestoreType
          save_tensor_name := GetNodeName names kTfQuantSaveOpName ++ ":0" }) := by
  have hf2 : (FindFilePrefixTensorName g).isEmpty = false := by
    cases hx : (FindFilePrefixTensorName g).isEmpty with
    | false => rfl
    | true => exact absurd ((String.isEmpty_iff _).mp hx) hf
  have hr2 : (GetNodeName names kTfSavedModelInitializerRestoreType).isEmpty = false := by
    cases hx : (GetNodeName names kTfSavedModelInitializerRestoreType).isEmpty with
    | false => rfl
    | true => exact absurd ((String.isEmpty_iff _).mp hx) hr
  have hs2 : (GetNodeName names kTfQuantSaveOpName).isEmpty = false := by
    cases hx : (GetNodeName names kTfQuantSaveOpName).isEmpty with
    | false => rfl
    | true => exact absurd ((String.isEmpty_iff _).mp hx) hs
  simp [CreateSaverDef, hf2, hr2, hs2]

/-- Witness for C2: a graph with a marked file-prefix argument node and names
matching both markers produces the fully populated `V2` descriptor. -/
theorem c2_all_signals_present_builds_saver_def_witness :
    CreateSaverDef ["restore_op_init", "tf_quant__save_op_1"]
        ⟨[⟨"file_prefix", "_Arg", [("tf_saved_model.index_path", ["__tf_file_prefix"])]⟩]⟩ =
      Except.ok (some
        { version := CheckpointFormatVersion.V2
          filename_tensor_name := "file_prefix:0"
          restore_op_name := "restore_op_init"
          save_tensor_name := "tf_quant__save_op_1:0" }) := by
  exact c2_all_signals_present_builds_saver_def _ _ (by decide) (by decide) (by decide)

/-- C3: for every graph with no matching argument node and every
control-output name list in which no name contains the restore marker and no
name contains the save marker, `CreateSaverDef` returns `ok none`: absence of
all three signals is a valid, non-error outcome. -/
theorem c3_all_signals_absent_ok_none (g : GraphDef) (names : List String)
    (hg : ∀ nd ∈ g.node, isFilePrefixArg nd = false)
    (hr : ∀ n ∈ names, strContains n kTfSavedModelInitializerRestoreType = false)
    (hs : ∀ n ∈ names, strContains n kTfQuantSaveOpName = false) :
    CreateSaverDef names g = Except.ok none := by
  have hf : FindFilePrefixTensorName g = "" := by
    rw [FindFilePrefixTensorName, findFilePrefixLoop_eq_find]
    have : g.node.find? isFilePrefixArg = none := by
      rw [List.find?_eq_none]
      intro nd hnd
      simp [hg nd hnd]
    simp [this]
  have hre := getNodeName_eq_empty_of_no_match names kTfSavedModelInitializerRestoreType hr
  have hse := getNodeName_eq_empty_of_no_match names kTfQuantSaveOpName hs
  have hempty : ("" : String).isEmpty = true := rfl
  simp [CreateSaverDef, hf, hre, hse, hempty]

/-- Witness for C3: a graph with only a constant node and a control-output
list with one unrelated name yields `ok none`. -/
theorem c3_all_signals_absent_ok_none_witness :
    CreateSaverDef ["Unrelated"] ⟨[⟨"c", "Const", [("value", ["1"])]⟩]⟩ = Except.ok none := by
  exact c3_all_signals_absent_ok_none _ _ (by decide) (by decide) (by decide)

/-- C4: `GetNodeName` returns the first name in list order containing the
marker as a case-sensitive exact substring, and the empty string when no name
contains it; on `["Restore_1", "tf_quant__save_op", "Unrelated"]` it returns
`"Restore_1"` for marker `"Restore"` and `"tf_quant__save_op"` for marker
`"save_op"`. -/
theorem c4_resolver_first_match_in_order :
    (∀ (names : List String) (m : String),
      GetNodeName names m = ((names.find? fun n => strContains n m).getD "")) ∧
    GetNodeName ["Restore_1", "tf_quant__save_op", "Unrelated"] "Restore" = "Restore_1" ∧
    GetNodeName ["Restore_1", "tf_quant__save_op", "Unrelated"] "save_op" = "tf_quant__save_op" :=
  ⟨getNodeName_eq_find, by decide, by decide⟩

/-- C5: `FindFilePrefixTensorName` returns `"<node name>:0"` for the first
node whose op is the argument op and whose index-path attribute list contains
`"__tf_file_prefix"`, and the empty string if no node satisfies both
conditions, even when argument nodes carry other index-path values. -/
theorem c5_locator_first_marked_arg :
    (∀ g : GraphDef,
      FindFilePrefixTensorName g =
        (((g.node.find? isFilePrefixArg).map fun nd => nd.name ++ ":0").getD "")) ∧
    FindFilePrefixTensorName
        ⟨[⟨"file_prefix", "_Arg", [("tf_saved_model.index_path", ["__tf_file_prefix"])]⟩]⟩ =
      "file_prefix:0" ∧
    FindFilePrefixTensorName
        ⟨[⟨"arg0", "_Arg", [("tf_saved_model.index_path", ["other_path"])]⟩]⟩ = "" :=
  ⟨fun g => findFilePrefixLoop_eq_find g.node, by decide, by decide⟩

/-- C6: `AddExportPasses` appends a fixed ordered stage sequence: with the
flag set, the duplication pass comes first and the attribute-strip pass last;
with the flag unset the duplication pass is omitted and all remaining stages
keep the identical relative order, with the initializer-merge, save-merge,
duplicate-resource-merge and attribute-strip stages in exactly that order. -/
theorem c6_export_pass_order :
    ∀ pm : List Pass,
      AddExportPasses pm true =
        pm ++ [Pass.DuplicateShapeDeterminingConstantsPass,
               Pass.InsertMainFunctionPass,
               Pass.LiftHashTableOpsAsArgsPass,
               Pass.FunctionalToExecutorDialectConversionPass,
               Pass.BreakUpIslandsPass,
               Pass.MergeInitializerFunctionOpsToMainPass,
               Pass.MergeSaveFunctionOpsToMainPass,
               Pass.MergeDuplicateResourceOpsPass,
               Pass.StripNoinlineAttributePass] ∧
      AddExportPasses pm false =
        pm ++ [Pass.InsertMainFunctionPass,
               Pass.LiftHashTableOpsAsArgsPass,
               Pass.FunctionalToExecutorDialectConversionPass,
               Pass.BreakUpIslandsPass,
               Pass.MergeInitializerFunctionOpsToMainPass,
               Pass.MergeSaveFunctionOpsToMainPass,
               Pass.MergeDuplicateResourceOpsPass,
               Pass.StripNoinlineAttributePass] := by
  intro pm
  constructor <;> simp [AddExportPasses]

/-- C8: `GetNodeName` called with the empty marker returns the first element
of a non-empty list (every string contains the empty substring), and returns
the empty string on the empty list for any marker. -/
theorem c8_empty_marker_first_element :
    (∀ (n : String) (rest : List String), GetNodeName (n :: rest) "" = n) ∧
    (∀ m : String, GetNodeName [] m = "") := by
  refine ⟨fun n rest => ?_, fun m => rfl⟩
  simp [GetNodeName, strContains_empty_needle]

/-- C9: for every graph whose node list holds two or more nodes matching the
file-prefix argument condition, `FindFilePrefixTensorName` silently returns
the name of the first such node in iteration order with `":0"` appended, with
no error or uniqueness check. -/
theorem c9_first_of_multiple_matches (g : GraphDef) (nd : NodeDef)
    (hmulti : 2 ≤ (g.node.filter isFilePrefixArg).length)
    (hfirst : g.node.find? isFilePrefixArg = some nd) :
    FindFilePrefixTensorName g = nd.name ++ ":0" := by
  rw [FindFilePrefixTensorName, findFilePrefixLoop_eq_find, hfirst]
  rfl

/-- Witness for C9: a graph with two marked file-prefix argument nodes
resolves to the first one. -/
theorem c9_first_of_multiple_matches_witness :
    FindFilePrefixTensorName
        ⟨[⟨"prefix_a", "_Arg", [("tf_saved_model.index_path", ["__tf_file_prefix"])]⟩,
          ⟨"prefix_b", "_Arg", [("tf_saved_model.index_path", ["__tf_file_prefix"])]⟩]⟩ =
      "prefix_a:0" := by
  exact c9_first_of_multiple_matches _
    ⟨"prefix_a", "_Arg", [("tf_saved_model.index_path", ["__tf_file_prefix"])]⟩
    (by decide) (by decide)

/-- C10: every `SaverDef` returned by `CreateSaverDef` inside `ok (some _)`
has its filename tensor name and save tensor name ending in `":0"`, and its
restore-op name is an element of the input control-output name list. -/
theorem c10_descriptor_shape_invariant (names : List String) (g : GraphDef) (sd : SaverDef)
    (h : CreateSaverDef names g = Except.ok (some sd)) :
    strEndsWith sd.filename_tensor_name ":0" = true ∧
    strEndsWith sd.save_tensor_name ":0" = true ∧
    sd.restore_op_name ∈ names := by
  simp only [CreateSaverDef] at h
  split at h
  next hallE => simp at h
  next hallE =>
    split at h
    next hallN =>
      simp only [Except.ok.injEq, Option.some.injEq] at h
      subst h
      simp only [List.all_cons, List.all_nil, Bool.and_true, Bool.and_eq_true,
        Bool.not_eq_true'] at hallN
      obtain ⟨hfE, hrE, hsE⟩ := hallN
      refine ⟨?_, ?_, ?_⟩
      · show strEndsWith (FindFilePrefixTensorName g) ":0" = true
        rcases findFilePrefix_empty_or_append g with hemp | ⟨nd, _, happ⟩
        · rw [hemp] at hfE
          exact absurd hfE (by decide)
        · rw [happ]
          exact strEndsWith_append_suffix nd.name
      · show strEndsWith (GetNodeName names kTfQuantSaveOpName ++ ":0") ":0" = true
        exact strEndsWith_append_suffix _
      · show GetNodeName names kTfSavedModelInitializerRestoreType ∈ names
        rcases getNodeName_mem_or_eq_empty names kTfSavedModelInitializerRestoreType with hemp | hmem
        · rw [hemp] at hrE
          exact absurd hrE (by decide)
        · exact hmem
    next hallN => simp at h

/-- Witness for C10: a concrete successful `CreateSaverDef` call whose
descriptor satisfies the shape invariant. -/
theorem c10_descriptor_shape_invariant_witness :
    strEndsWith "fp:0" ":0" = true ∧ strEndsWith "tf_quant__save_op_z:0" ":0" = true ∧
    "restore_op_z" ∈ ["restore_op_z", "tf_quant__save_op_z"] := by
  exact c10_descriptor_shape_invariant ["restore_op_z", "tf_quant__save_op_z"]
    ⟨[⟨"fp", "_Arg", [("tf_saved_model.index_path", ["__tf_file_prefix"])]⟩]⟩
    ⟨CheckpointFormatVersion.V2, "fp:0", "restore_op_z", "tf_quant__save_op_z:0"⟩ (by rfl)

end TfExport
